import Mathlib

/-!
Verification of the RPGenius desktop client's state model against its
specification.  The definitions below are a shallow embedding of the Python
sources (`rpgenius/state.py`, `rpgenius/services/spotify_client.py`,
`rpgenius/ui/app.py`): pure computations become Lean functions, the mutable
`AppState`/window state becomes explicit state passing, Python dicts become
insertion-ordered association lists with last-write-wins update, and the
external Spotify SDK is an oracle parameter (`Except`-valued) supplied to each
operation.
-/

set_option autoImplicit false

namespace RPGenius

/-! ## Python-style primitives -/

/-- ASCII whitespace recognised by Python's `str.strip()` (the repository only
ever strips query strings, for which these are the relevant characters). -/
def isPySpace (c : Char) : Bool :=
  c = ' ' || c = '\t' || c = '\n' || c = '\r' || c = '\x0b' || c = '\x0c'

/-- Python `s.strip()`: drop leading and trailing whitespace. -/
def pyStrip (s : String) : String :=
  String.mk (((s.toList.dropWhile isPySpace).reverse.dropWhile isPySpace).reverse)

/-- Python `dict` assignment `m[k] = v`: an existing key keeps its insertion
position and gets the new value, a new key is appended at the end. -/
def dictInsert {α : Type} (m : List (String × α)) (k : String) (v : α) :
    List (String × α) :=
  if m.any (fun p => p.1 == k) then
    m.map (fun p => if p.1 == k then (k, v) else p)
  else
    m ++ [(k, v)]

/-- Python dict built from a sequence of key/value pairs (dict comprehension:
first-occurrence order, last value wins). -/
def dictOfPairs {α : Type} (l : List (String × α)) : List (String × α) :=
  l.foldl (fun m p => dictInsert m p.1 p.2) []

/-- Keys of the dict, in insertion order (Python `dict.keys()`). -/
def dictKeys {α : Type} (m : List (String × α)) : List String :=
  m.map Prod.fst

/-! ## Raw Spotify payloads

Typed counterparts of the JSON dictionaries returned by the SDK.  A missing
key is `none` / an empty list, matching the `dict.get` defaults used by the
code. -/

inductive ResultKind
| track
| album
| artist
| playlist
deriving DecidableEq

structure RawArtist where
  name : Option String := none
deriving DecidableEq

structure RawImage where
  url : Option String := none
deriving DecidableEq

structure RawAlbum where
  images : List RawImage := []
deriving DecidableEq

structure RawOwner where
  display_name : Option String := none
deriving DecidableEq

structure RawItem where
  uri : Option String := none
  name : Option String := none
  artists : List RawArtist := []
  album : Option RawAlbum := none
  images : List RawImage := []
  owner : Option RawOwner := none
deriving DecidableEq

/-- One raw search result as produced by `SpotifyService.search_tracks`, which
copies the item and stamps it with its `result_type`. -/
structure TaggedResult where
  item : RawItem
  result_type : ResultKind
deriving DecidableEq

/-- Sections of the multi-kind search response (`results["tracks"]["items"]`,
etc.); an absent or malformed section is the empty list. -/
structure SearchResponse where
  tracks : List RawItem := []
  albums : List RawItem := []
  artists : List RawItem := []
  playlists : List RawItem := []
deriving DecidableEq

structure DeviceRaw where
  name : Option String := none
  id : Option String := none
deriving DecidableEq

structure PlayItem where
  name : String := ""
  duration_ms : Nat := 0
deriving DecidableEq

/-- Playback snapshot returned by `get_current_playback`; `progress_ms` and
`is_playing` carry the `dict.get` defaults `0` and `False`. -/
structure PlaybackSnapshot where
  item : Option PlayItem := none
  is_playing : Bool := false
  progress_ms : Nat := 0
deriving DecidableEq

inductive SpotifyErr
| notAuthenticated
| serviceFailure
| noUri
deriving DecidableEq

/-! ## SpotifyService (services/spotify_client.py) -/

/-- SpotifyService.search_tracks: a blank query returns `[]` before
`_ensure_client` runs or the SDK is contacted; otherwise the four sections of
the SDK response are tagged and concatenated (tracks, albums, artists,
playlists).  The first component records whether the external search was
invoked. -/
def searchTracksService (authed : Bool) (query : String)
    (fetch : Except Unit SearchResponse) :
    Bool × Except SpotifyErr (List TaggedResult) :=
  if pyStrip query = "" then (false, .ok [])
  else if !authed then (false, .error .notAuthenticated)
  else
    match fetch with
    | .error _ => (true, .error .serviceFailure)
    | .ok resp =>
        (true, .ok (resp.tracks.map (fun t => ⟨t, .track⟩)
          ++ resp.albums.map (fun a => ⟨a, .album⟩)
          ++ resp.artists.map (fun a => ⟨a, .artist⟩)
          ++ resp.playlists.map (fun p => ⟨p, .playlist⟩)))

/-- Authentication handle of `SpotifyService` (`_client is not None`). -/
structure ServiceState where
  hasClient : Bool := false
deriving DecidableEq

/-- SpotifyService.try_authenticate_from_cache: unconfigured credentials give
`None`; any exception during restoration (`restore = .error`) is caught and
gives `None`; on success the client handle is installed and the user profile
returned.  The `Except` in the result records whether the call raises. -/
def tryAuthenticateFromCache (configured : Bool) (restore : Except Unit String)
    (st : ServiceState) : ServiceState × Except Unit (Option String) :=
  if !configured then (st, .ok none)
  else
    match restore with
    | .ok user => ({ st with hasClient := true }, .ok (some user))
    | .error _ => (st, .ok none)

/-- External call issued by `SpotifyService.start_playback`. -/
inductive PlaybackDispatch
| uris (deviceId : String) (uriList : List String)
| contextUri (deviceId : String) (uri : String)
deriving DecidableEq

/-- Python truthiness of the `uris` argument (`None` and `[]` are falsy). -/
def pyTruthyOptList (l : Option (List String)) : Bool :=
  match l with
  | none => false
  | some xs => !xs.isEmpty

/-- Python truthiness of the `context_uri` argument (`None` and `""` falsy). -/
def pyTruthyOptStr (s : Option String) : Bool :=
  match s with
  | none => false
  | some v => !(v == "")

/-- SpotifyService.start_playback: `_ensure_client` first, then the
no-URI guard, then dispatch — `context_uri` when truthy, else `uris`.
An `.ok` result is the external call that is made; `.error .noUri` is raised
before any external playback call. -/
def startPlayback (authed : Bool) (deviceId : String)
    (uris : Option (List String)) (contextUri : Option String) :
    Except SpotifyErr PlaybackDispatch :=
  if !authed then .error .notAuthenticated
  else if !pyTruthyOptList uris && !pyTruthyOptStr contextUri then .error .noUri
  else if pyTruthyOptStr contextUri then
    .ok (.contextUri deviceId (contextUri.getD ""))
  else
    .ok (.uris deviceId (match uris with | some l => l | none => []))

/-! ## AppState (state.py) -/

structure SearchEntry where
  displayName : String
  uri : String
  result_type : ResultKind
  imageUrl : Option String
deriving DecidableEq

structure AppState where
  track_uris : List (String × String) := []
  result_types : List (String × ResultKind) := []
  image_urls : List (String × Option String) := []
  device_map : List (String × String) := []
  username : Option String := none
  avatar_url : Option String := none
deriving DecidableEq

def AppState.is_authenticated (st : AppState) : Bool :=
  st.username.isSome

def AppState.clear_tracks (st : AppState) : AppState :=
  { st with track_uris := [], result_types := [], image_urls := [] }

/-- One iteration of the `AppState.set_tracks` loop: insert the entry into the
three parallel maps. -/
def setTracksStep (s : AppState) (e : SearchEntry) : AppState :=
  { s with
    track_uris := dictInsert s.track_uris e.displayName e.uri
    result_types := dictInsert s.result_types e.displayName e.result_type
    image_urls := dictInsert s.image_urls e.displayName e.imageUrl }

/-- AppState.set_tracks: clear the three maps, then insert every entry. -/
def AppState.set_tracks (st : AppState) (entries : List SearchEntry) : AppState :=
  entries.foldl setTracksStep st.clear_tracks

/-- AppState.set_devices: `device_map` is rebuilt as a dict comprehension over
the given (name, id) pairs. -/
def AppState.set_devices (st : AppState) (devices : List (String × String)) :
    AppState :=
  { st with device_map := dictOfPairs devices }

/-- AppState.reset: clear the session, the device map and the track maps. -/
def AppState.reset (st : AppState) : AppState :=
  ({ st with username := none, avatar_url := none, device_map := [] }).clear_tracks

def AppState.get_device_id (st : AppState) (deviceName : String) : Option String :=
  (st.device_map.find? (fun p => p.1 == deviceName)).map Prod.snd

/-! ## Search ingestion (MainWindow.search_tracks, app.py) -/

/-- Thumbnail extraction: tracks read `album.images[0].url`, the other kinds
read the item's own `images[0].url`; anything missing gives `none`. -/
def extractImageUrl (r : TaggedResult) : Option String :=
  match r.result_type with
  | .track =>
      match r.item.album with
      | some al =>
          match al.images with
          | im :: _ => im.url
          | [] => none
      | none => none
  | _ =>
      match r.item.images with
      | im :: _ => im.url
      | [] => none

/-- Display-label formatting of `MainWindow.search_tracks`, kind by kind, with
the source's `dict.get` fallback strings. -/
def formatDisplayName (r : TaggedResult) : String :=
  match r.result_type with
  | .track =>
      let title := r.item.name.getD "Sans titre"
      let artist :=
        match r.item.artists with
        | [] => "Artiste inconnu"
        | a :: _ => a.name.getD "Artiste inconnu"
      s!"{title} – {artist}"
  | .album =>
      let albumName := r.item.name.getD "Sans titre"
      let artist :=
        match r.item.artists with
        | [] => "Artiste inconnu"
        | a :: _ => a.name.getD "Artiste inconnu"
      s!"{albumName} – {artist}"
  | .artist => r.item.name.getD "Artiste inconnu"
  | .playlist =>
      let playlistName := r.item.name.getD "Sans titre"
      let ownerName :=
        match r.item.owner with
        | some o => o.display_name.getD "Utilisateur inconnu"
        | none => "Utilisateur inconnu"
      s!"{playlistName} – {ownerName}"

/-- One raw result of the ingestion loop: results whose `uri` is missing or
empty are dropped (`if uri:` guard), the rest become an entry. -/
def ingestEntry (r : TaggedResult) : Option SearchEntry :=
  if r.item.uri.getD "" = "" then none
  else some ⟨formatDisplayName r, r.item.uri.getD "", r.result_type, extractImageUrl r⟩

/-- The full ingestion loop over the service's result list. -/
def ingestEntries (results : List TaggedResult) : List SearchEntry :=
  results.filterMap ingestEntry

/-! ## Spec-side display labels (for the refinement claim C2)

These definitions follow the wording of spec §4.2 — per-kind templates with a
fixed placeholder per missing field — and are compared with the code-side
`formatDisplayName`. -/

/-- Primary artist name as the spec words it: the name of the first artist,
with placeholder "Artiste inconnu" when the artist or its name is missing. -/
def specPrimaryArtistName (item : RawItem) : String :=
  ((item.artists.head?.bind (fun a => a.name)).getD "Artiste inconnu")

/-- Owner display name per the spec, placeholder "Utilisateur inconnu". -/
def specOwnerDisplayName (item : RawItem) : String :=
  ((item.owner.bind (fun o => o.display_name)).getD "Utilisateur inconnu")

/-- Display label templates of spec §4.2. -/
def specDisplayLabel (r : TaggedResult) : String :=
  let title := r.item.name.getD "Sans titre"
  let primaryArtist := specPrimaryArtistName r.item
  let ownerName := specOwnerDisplayName r.item
  match r.result_type with
  | .track => s!"{title} – {primaryArtist}"
  | .album => s!"{title} – {primaryArtist}"
  | .artist => r.item.name.getD "Artiste inconnu"
  | .playlist => s!"{title} – {ownerName}"

/-! ## Device refresh (MainWindow.refresh_devices, app.py) -/

/-- Ingestion of the raw device list: each device contributes
`(name or "Appareil inconnu", id or "")` to the dict comprehension of
`AppState.set_devices`. -/
def refreshDeviceMap (devices : List DeviceRaw) : List (String × String) :=
  dictOfPairs (devices.map (fun d => (d.name.getD "Appareil inconnu", d.id.getD "")))

/-- Selection rule of `refresh_devices`: empty set clears the selection; a
previous selection still present is kept; otherwise the first device name. -/
def refreshDevicesSelection (previousSelection : String)
    (deviceMap : List (String × String)) : String :=
  match dictKeys deviceMap with
  | [] => ""
  | first :: _ =>
      if previousSelection ∈ dictKeys deviceMap then previousSelection else first

/-! ## Window-level UI state (MainWindow, app.py) -/

def SEARCH_PLACEHOLDER : String := "Que souhaitez-vous écouter ou regarder ?"

structure UIState where
  state : AppState := {}
  deviceSelection : String := ""
  searchText : String := ""
  placeholderActive : Bool := true
  serviceAuthed : Bool := false
deriving DecidableEq

/-- MainWindow.disconnect_spotify: no-op when not authenticated; otherwise
`service.logout()`, `state.reset()`, and `_update_auth_ui()` (which clears the
device selection and re-installs the search placeholder). -/
def disconnectSpotify (ui : UIState) : UIState :=
  if !ui.serviceAuthed then ui
  else
    { ui with
      serviceAuthed := false
      state := ui.state.reset
      deviceSelection := ""
      searchText := SEARCH_PLACEHOLDER
      placeholderActive := true }

inductive SearchOutcome
| emptyInput
| notAuthenticated
| searchFailure
| noResults
| results (entries : List SearchEntry)
deriving DecidableEq

structure SearchStep where
  outcome : SearchOutcome
  externalCalled : Bool
  ui : UIState
deriving DecidableEq

/-- MainWindow.search_tracks: placeholder/blank input short-circuits (an
automatic search additionally clears the stored tracks), a missing session is
refused before the service is called, a service failure leaves the state
untouched, and a successful fetch replaces the stored tracks with the ingested
entries. -/
def searchTracksUI (ui : UIState) (manual : Bool)
    (fetch : Except Unit SearchResponse) : SearchStep :=
  if ui.placeholderActive then
    { outcome := .emptyInput, externalCalled := false
      ui := if manual then ui else { ui with state := ui.state.clear_tracks } }
  else if pyStrip ui.searchText = "" then
    { outcome := .emptyInput, externalCalled := false
      ui := if manual then ui else { ui with state := ui.state.clear_tracks } }
  else if !ui.serviceAuthed then
    { outcome := .notAuthenticated, externalCalled := false, ui := ui }
  else
    match searchTracksService ui.serviceAuthed ui.searchText fetch with
    | (called, .error _) =>
        { outcome := .searchFailure, externalCalled := called, ui := ui }
    | (called, .ok tagged) =>
        if tagged.isEmpty then
          { outcome := .noResults, externalCalled := called
            ui := { ui with state := ui.state.clear_tracks } }
        else
          let entries := ingestEntries tagged
          { outcome := .results entries, externalCalled := called
            ui := { ui with state := ui.state.set_tracks entries } }

/-! ## Transport controls and the poll loop (app.py) -/

inductive ExtCall
| prevTrack
| seekZero
deriving DecidableEq

structure PreviousOutcome where
  calls : List ExtCall
  errorShown : Bool
deriving DecidableEq

/-- MainWindow._previous_track.  `deviceId` is `_get_current_device_id()`,
`playback` the `get_current_playback()` result (`.error` = raised),
`prevOk`/`seekOk` tell whether the corresponding SDK calls succeed.  `calls`
lists the transport calls issued in order; `errorShown` is the final
`showerror` dialog (the missing-device warning is a separate early return). -/
def previousTrack (deviceId : Option String)
    (playback : Except Unit (Option PlaybackSnapshot))
    (prevOk : Bool) (seekOk : Bool) : PreviousOutcome :=
  match deviceId with
  | none => { calls := [], errorShown := false }
  | some _ =>
      match playback with
      | .error _ => { calls := [], errorShown := false }
      | .ok none => { calls := [], errorShown := false }
      | .ok (some pb) =>
          match pb.item with
          | none => { calls := [], errorShown := false }
          | some _ =>
              if pb.progress_ms < 3000 then
                if prevOk then
                  { calls := [ExtCall.prevTrack], errorShown := false }
                else if seekOk then
                  { calls := [ExtCall.prevTrack, ExtCall.seekZero], errorShown := false }
                else
                  { calls := [ExtCall.prevTrack, ExtCall.seekZero], errorShown := true }
              else
                if seekOk then
                  { calls := [ExtCall.seekZero], errorShown := false }
                else
                  { calls := [ExtCall.seekZero], errorShown := true }

/-- Transport-control slice of the window re-rendered by the poll loop. -/
structure PlayerView where
  currentItem : Option PlayItem := none
  isPlaying : Bool := false
  controlsEnabled : Bool := false
deriving DecidableEq

inductive ViewMode
| playing
| paused
| ready
deriving DecidableEq

def PlayerView.mode (v : PlayerView) : ViewMode :=
  match v.currentItem with
  | none => .ready
  | some _ => if v.isPlaying then .playing else .paused

/-- MainWindow._update_progress, one poll tick.  The second component tells
whether the next tick is scheduled (a fetch failure or a missing session stops
the loop). -/
def updateProgress (authed : Bool) (v : PlayerView)
    (fetch : Except Unit (Option PlaybackSnapshot)) : PlayerView × Bool :=
  if !authed then (v, false)
  else
    match fetch with
    | .error _ => (v, false)
    | .ok none =>
        ({ v with isPlaying := false, currentItem := none, controlsEnabled := false },
         true)
    | .ok (some pb) =>
        match pb.item with
        | some it =>
            ({ v with
                isPlaying := pb.is_playing
                currentItem := some it
                controlsEnabled := true }, true)
        | none =>
            ({ v with
                isPlaying := false
                currentItem := none
                controlsEnabled := false }, true)

/-! ## Helper lemmas about the dict model -/

theorem mem_dictInsert {α : Type} {m : List (String × α)} {k : String} {v : α}
    {p : String × α} (h : p ∈ dictInsert m k v) : p ∈ m ∨ p = (k, v) := by
  unfold dictInsert at h
  split at h
  · rcases List.mem_map.1 h with ⟨q, hq, hqe⟩
    by_cases hk : (q.1 == k) = true
    · rw [if_pos hk] at hqe
      exact Or.inr hqe.symm
    · rw [if_neg hk] at hqe
      exact Or.inl (hqe ▸ hq)
  · rcases List.mem_append.1 h with h1 | h2
    · exact Or.inl h1
    · exact Or.inr (List.mem_singleton.1 h2)

theorem mem_foldl_dictInsert {α : Type} :
    ∀ (l : List (String × α)) (acc : List (String × α)) (p : String × α),
      p ∈ l.foldl (fun m q => dictInsert m q.1 q.2) acc → p ∈ acc ∨ p ∈ l := by
  intro l
  induction l with
  | nil => intro acc p h; exact Or.inl h
  | cons q t ih =>
    intro acc p h
    rcases ih _ p h with h1 | h2
    · rcases mem_dictInsert h1 with hm | he
      · exact Or.inl hm
      · exact Or.inr (he ▸ List.mem_cons_self q t)
    · exact Or.inr (List.mem_cons_of_mem q h2)

theorem mem_dictOfPairs {α : Type} {l : List (String × α)} {p : String × α}
    (h : p ∈ dictOfPairs l) : p ∈ l := by
  rcases mem_foldl_dictInsert l [] p h with h1 | h2
  · cases h1
  · exact h2

theorem mem_foldl_setTracksStep :
    ∀ (l : List SearchEntry) (s : AppState) (p : String × String),
      p ∈ (l.foldl setTracksStep s).track_uris →
      p ∈ s.track_uris ∨ ∃ e ∈ l, p = (e.displayName, e.uri) := by
  intro l
  induction l with
  | nil => intro s p h; exact Or.inl h
  | cons e t ih =>
    intro s p h
    rcases ih _ p h with h1 | h2
    · rcases mem_dictInsert h1 with hm | he
      · exact Or.inl hm
      · exact Or.inr ⟨e, List.mem_cons_self e t, he⟩
    · rcases h2 with ⟨q, hq, hp⟩
      exact Or.inr ⟨q, List.mem_cons_of_mem e hq, hp⟩

theorem mem_set_tracks_track_uris {st : AppState} {entries : List SearchEntry}
    {p : String × String} (h : p ∈ (st.set_tracks entries).track_uris) :
    ∃ e ∈ entries, p = (e.displayName, e.uri) := by
  rcases mem_foldl_setTracksStep entries st.clear_tracks p h with h1 | h2
  · simp [AppState.clear_tracks] at h1
  · exact h2

/-! ## Claim theorems -/

/-- C1: for every raw result list returned by the external search, every entry
stored in the view-state's `track_uris` map has a non-empty playable
reference, and a raw item whose `uri` is empty or missing contributes no entry
at ingestion. -/
theorem search_entries_have_nonempty_uri (st : AppState) (raws : List TaggedResult) :
    (∀ p ∈ (st.set_tracks (ingestEntries raws)).track_uris, p.2 ≠ "") ∧
    (∀ r ∈ raws, r.item.uri.getD "" = "" → ingestEntry r = none) := by
  constructor
  · intro p hp
    rcases mem_set_tracks_track_uris hp with ⟨e, he, rfl⟩
    rcases List.mem_filterMap.1 he with ⟨r, _, hr⟩
    unfold ingestEntry at hr
    split at hr
    · exact absurd hr (by simp)
    · next hne =>
      cases hr
      exact hne
  · intro r _ hempty
    unfold ingestEntry
    rw [if_pos hempty]

theorem search_entries_have_nonempty_uri_witness :
    ("spotify:track:1" : String) ≠ "" ∧
    ingestEntry ⟨{ uri := some "" }, ResultKind.track⟩ = none := by
  refine ⟨?_, ?_⟩
  · exact (search_entries_have_nonempty_uri {}
      [⟨{ uri := some "spotify:track:1", name := some "Yesterday",
          artists := [{ name := some "The Beatles" }] }, ResultKind.track⟩,
       ⟨{ uri := some "" }, ResultKind.track⟩]).1
      ("Yesterday – The Beatles", "spotify:track:1") (by decide)
  · exact (search_entries_have_nonempty_uri {}
      [⟨{ uri := some "" }, ResultKind.track⟩]).2
      ⟨{ uri := some "" }, ResultKind.track⟩ (by decide) (by decide)

/-- C2: for every raw result, the display label computed by the code equals
the spec §4.2 per-kind template, with the fixed placeholder for each missing
field ("Sans titre", "Artiste inconnu", "Utilisateur inconnu"). -/
theorem display_label_matches_spec (r : TaggedResult) :
    formatDisplayName r = specDisplayLabel r := by
  obtain ⟨item, kind⟩ := r
  cases kind
  case track =>
    cases h : item.artists with
    | nil =>
      simp [formatDisplayName, specDisplayLabel, specPrimaryArtistName, h]
    | cons a t =>
      simp [formatDisplayName, specDisplayLabel, specPrimaryArtistName, h]
  case album =>
    cases h : item.artists with
    | nil =>
      simp [formatDisplayName, specDisplayLabel, specPrimaryArtistName, h]
    | cons a t =>
      simp [formatDisplayName, specDisplayLabel, specPrimaryArtistName, h]
  case artist =>
    simp [formatDisplayName, specDisplayLabel]
  case playlist =>
    cases h : item.owner with
    | none =>
      simp [formatDisplayName, specDisplayLabel, specOwnerDisplayName, h]
    | some o =>
      simp [formatDisplayName, specDisplayLabel, specOwnerDisplayName, h]

/-- C3: with an active device and a playback snapshot carrying a current item,
`previous()` below 3000 ms first attempts skip-to-previous and, on external
failure of that attempt with a working seek, falls back to seek(0) with no
error dialog; at or above 3000 ms it seeks to 0 and never attempts
skip-to-previous. -/
theorem previous_track_policy (d : String) (pb : PlaybackSnapshot) (it : PlayItem)
    (hit : pb.item = some it) (prevOk seekOk : Bool) :
    (pb.progress_ms < 3000 →
      (previousTrack (some d) (.ok (some pb)) prevOk seekOk).calls.head? =
        some ExtCall.prevTrack ∧
      (prevOk = false → seekOk = true →
        previousTrack (some d) (.ok (some pb)) prevOk seekOk =
          { calls := [ExtCall.prevTrack, ExtCall.seekZero], errorShown := false })) ∧
    (3000 ≤ pb.progress_ms →
      (previousTrack (some d) (.ok (some pb)) prevOk seekOk).calls =
        [ExtCall.seekZero]) := by
  refine ⟨fun hlt => ⟨?_, ?_⟩, fun hge => ?_⟩
  · cases prevOk <;> cases seekOk <;> simp [previousTrack, hit, hlt]
  · rintro rfl rfl
    simp [previousTrack, hit, hlt]
  · have hn : ¬ pb.progress_ms < 3000 := by omega
    cases seekOk <;> simp [previousTrack, hit, hn]

theorem previous_track_policy_witness :
    previousTrack (some "id1")
        (Except.ok (some { item := some {}, progress_ms := 2000 })) false true =
      { calls := [ExtCall.prevTrack, ExtCall.seekZero], errorShown := false } ∧
    (previousTrack (some "id1")
        (Except.ok (some { item := some {}, progress_ms := 5000 })) false true).calls =
      [ExtCall.seekZero] := by
  refine ⟨?_, ?_⟩
  · exact ((previous_track_policy "id1" { item := some {}, progress_ms := 2000 }
      {} rfl false true).1 (by decide)).2 rfl rfl
  · exact (previous_track_policy "id1" { item := some {}, progress_ms := 5000 }
      {} rfl false true).2 (by decide)

/-- C4: on a device refresh, a previous selection still present among the new
device names is kept, otherwise the first device name is selected, and an
empty device set clears the selection. -/
theorem refresh_devices_selection_rule (prev : String) (devices : List DeviceRaw) :
    (prev ∈ dictKeys (refreshDeviceMap devices) →
      refreshDevicesSelection prev (refreshDeviceMap devices) = prev) ∧
    (∀ first rest, dictKeys (refreshDeviceMap devices) = first :: rest →
      prev ∉ dictKeys (refreshDeviceMap devices) →
      refreshDevicesSelection prev (refreshDeviceMap devices) = first) ∧
    (refreshDeviceMap devices = [] →
      refreshDevicesSelection prev (refreshDeviceMap devices) = "") := by
  refine ⟨?_, ?_, ?_⟩
  · intro hmem
    unfold refreshDevicesSelection
    split
    · next heq =>
      rw [heq] at hmem
      simp at hmem
    · next first rest heq =>
      rw [if_pos hmem]
  · intro first rest hk hnm
    unfold refreshDevicesSelection
    split
    · next heq =>
      rw [heq] at hk
      cases hk
    · next f r heq =>
      rw [if_neg hnm]
      exact (List.cons.inj (heq.symm.trans hk)).1
  · intro hempty
    unfold refreshDevicesSelection
    split
    · next heq => rfl
    · next f r heq =>
      rw [hempty] at heq
      simp [dictKeys] at heq

theorem refresh_devices_selection_witness :
    refreshDevicesSelection "Kitchen" (refreshDeviceMap
      [{ name := some "Kitchen", id := some "id1" },
       { name := some "Office", id := some "id2" }]) = "Kitchen" ∧
    refreshDevicesSelection "Kitchen" (refreshDeviceMap
      [{ name := some "Office", id := some "id2" }]) = "Office" ∧
    refreshDevicesSelection "Kitchen" (refreshDeviceMap []) = "" := by
  refine ⟨?_, ?_, ?_⟩
  · exact (refresh_devices_selection_rule "Kitchen"
      [{ name := some "Kitchen", id := some "id1" },
       { name := some "Office", id := some "id2" }]).1 (by decide)
  · exact (refresh_devices_selection_rule "Kitchen"
      [{ name := some "Office", id := some "id2" }]).2.1 "Office" [] (by decide) (by decide)
  · exact (refresh_devices_selection_rule "Kitchen" []).2.2 rfl

/-- C5 as stated is false: a raw device carrying no usable identifier is not
excluded at ingestion — it lands in the device map with an empty-string
identifier (`device.get("id", "")` with no filtering). -/
theorem device_map_empty_id_counterexample :
    refreshDeviceMap [{ name := some "Kitchen" }] = [("Kitchen", "")] ∧
    ¬ (∀ p ∈ refreshDeviceMap [{ name := some "Kitchen" }], p.2 ≠ "") := by
  refine ⟨by decide, ?_⟩
  intro h
  exact h ("Kitchen", "") (by decide) rfl

/-- C5 amended: every entry of the device map takes its display name and
identifier from some raw device, the name defaulting to "Appareil inconnu"
and the identifier defaulting to the empty string when missing; raw devices
without a usable identifier are NOT excluded. -/
theorem device_map_entries_from_raw (devices : List DeviceRaw) (p : String × String)
    (hp : p ∈ refreshDeviceMap devices) :
    ∃ d ∈ devices, p = (d.name.getD "Appareil inconnu", d.id.getD "") := by
  unfold refreshDeviceMap at hp
  have h := mem_dictOfPairs hp
  rcases List.mem_map.1 h with ⟨d, hd, hdp⟩
  exact ⟨d, hd, hdp.symm⟩

theorem device_map_entries_from_raw_witness :
    ∃ d ∈ [({ name := some "Kitchen" } : DeviceRaw)],
      ("Kitchen", "") = (d.name.getD "Appareil inconnu", d.id.getD "") :=
  device_map_entries_from_raw [{ name := some "Kitchen" }] ("Kitchen", "") (by decide)

/-- Authenticated window state with populated view-state, used to exercise
the logout theorem on concrete data. -/
def demoLoggedInUI : UIState :=
  { state :=
      { track_uris := [("Yesterday – The Beatles", "spotify:track:1")]
        result_types := [("Yesterday – The Beatles", ResultKind.track)]
        image_urls := [("Yesterday – The Beatles", some "http://img")]
        device_map := [("Kitchen", "id1")]
        username := some "kev"
        avatar_url := some "http://avatar" }
    deviceSelection := "Kitchen"
    searchText := "yesterday"
    placeholderActive := false
    serviceAuthed := true }

/-- Unauthenticated window state still holding stale query text. -/
def demoStaleSearchUI : UIState :=
  { searchText := "yesterday"
    placeholderActive := false
    serviceAuthed := false }

/-- C6: logout clears the session (username and avatar), the three search
result maps, the device map and the device selection in one operation; and a
search attempted with real query input but no authenticated session is
refused at the not-authenticated check without calling the external
service. -/
theorem logout_clears_state_and_search_refused (ui : UIState)
    (hauth : ui.serviceAuthed = true) :
    ((disconnectSpotify ui).state.username = none ∧
     (disconnectSpotify ui).state.avatar_url = none ∧
     (disconnectSpotify ui).state.track_uris = [] ∧
     (disconnectSpotify ui).state.result_types = [] ∧
     (disconnectSpotify ui).state.image_urls = [] ∧
     (disconnectSpotify ui).state.device_map = [] ∧
     (disconnectSpotify ui).deviceSelection = "" ∧
     (disconnectSpotify ui).serviceAuthed = false) ∧
    (∀ (ui2 : UIState) (manual : Bool) (fetch : Except Unit SearchResponse),
      ui2.serviceAuthed = false → ui2.placeholderActive = false →
      pyStrip ui2.searchText ≠ "" →
      (searchTracksUI ui2 manual fetch).outcome = SearchOutcome.notAuthenticated ∧
      (searchTracksUI ui2 manual fetch).externalCalled = false) := by
  constructor
  · simp [disconnectSpotify, hauth, AppState.reset, AppState.clear_tracks]
  · intro ui2 manual fetch hna hph hq
    simp [searchTracksUI, hna, hph, hq]

theorem logout_clears_state_witness :
    (disconnectSpotify demoLoggedInUI).state.username = none ∧
    (disconnectSpotify demoLoggedInUI).state.track_uris = [] ∧
    (disconnectSpotify demoLoggedInUI).state.device_map = [] ∧
    (disconnectSpotify demoLoggedInUI).deviceSelection = "" ∧
    (searchTracksUI demoStaleSearchUI true (Except.ok {})).outcome =
      SearchOutcome.notAuthenticated ∧
    (searchTracksUI demoStaleSearchUI true (Except.ok {})).externalCalled = false := by
  obtain ⟨⟨h1, _, h3, _, _, h6, h7, _⟩, hs⟩ :=
    logout_clears_state_and_search_refused demoLoggedInUI rfl
  obtain ⟨hs1, hs2⟩ := hs demoStaleSearchUI true (Except.ok {}) rfl rfl (by decide)
  exact ⟨h1, h3, h6, h7, hs1, hs2⟩

/-- C7: a poll tick with a snapshot carrying a current item copies the
snapshot's playing flag into the view and keeps transport controls enabled; a
tick with no snapshot or no current item disables the controls; and the
three-snapshot sequence (item playing, item paused, no item) drives the view
through Playing, Paused, Ready with the controls disabled exactly on the
third tick. -/
theorem poll_tick_view_transitions (v : PlayerView) (pb : PlaybackSnapshot)
    (it A : PlayItem) :
    (pb.item = some it →
      (updateProgress true v (.ok (some pb))).1.isPlaying = pb.is_playing ∧
      (updateProgress true v (.ok (some pb))).1.controlsEnabled = true) ∧
    (pb.item = none →
      (updateProgress true v (.ok (some pb))).1.controlsEnabled = false) ∧
    (updateProgress true v (.ok none)).1.controlsEnabled = false ∧
    (let v1 := (updateProgress true v
        (.ok (some { item := some A, is_playing := true }))).1
     let v2 := (updateProgress true v1
        (.ok (some { item := some A, is_playing := false }))).1
     let v3 := (updateProgress true v2 (.ok none)).1
     v1.mode = ViewMode.playing ∧ v2.mode = ViewMode.paused ∧
     v3.mode = ViewMode.ready ∧
     v1.controlsEnabled = true ∧ v2.controlsEnabled = true ∧
     v3.controlsEnabled = false) := by
  refine ⟨fun hit => ?_, fun hnone => ?_, ?_, ?_⟩
  · simp [updateProgress, hit]
  · simp [updateProgress, hnone]
  · simp [updateProgress]
  · simp [updateProgress, PlayerView.mode]

theorem poll_tick_view_transitions_witness :
    (updateProgress true {}
      (Except.ok (some { item := some ({} : PlayItem), is_playing := true }))).1.isPlaying
      = true ∧
    (updateProgress true {}
      (Except.ok (some { item := some ({} : PlayItem), is_playing := true }))).1.controlsEnabled
      = true ∧
    (updateProgress true {}
      (Except.ok (some ({} : PlaybackSnapshot)))).1.controlsEnabled = false := by
  have h1 := (poll_tick_view_transitions {}
    { item := some ({} : PlayItem), is_playing := true } {} {}).1 rfl
  have h2 := (poll_tick_view_transitions {} ({} : PlaybackSnapshot) {} {}).2.1 rfl
  exact ⟨h1.1, h1.2, h2⟩

/-- C8: a blank or whitespace-only query makes the service return an empty
result list without contacting the external search, and the window-level
search also ends as empty input with no external call. -/
theorem blank_query_no_external_search (authed : Bool) (q : String)
    (fetch : Except Unit SearchResponse) (hq : pyStrip q = "") :
    searchTracksService authed q fetch = (false, Except.ok []) ∧
    (∀ (ui : UIState) (manual : Bool), ui.searchText = q →
      (searchTracksUI ui manual fetch).outcome = SearchOutcome.emptyInput ∧
      (searchTracksUI ui manual fetch).externalCalled = false) := by
  constructor
  · simp [searchTracksService, hq]
  · intro ui manual hui
    by_cases hph : ui.placeholderActive = true
    · simp [searchTracksUI, hph]
    · simp [searchTracksUI, hph, hui, hq]

theorem blank_query_no_external_search_witness :
    searchTracksService true " \t " (Except.ok {}) = (false, Except.ok []) ∧
    (searchTracksUI { searchText := " \t ", placeholderActive := false, serviceAuthed := true }
      true (Except.ok {})).externalCalled = false := by
  have h := blank_query_no_external_search true " \t " (Except.ok {}) (by decide)
  exact ⟨h.1,
    (h.2 { searchText := " \t ", placeholderActive := false, serviceAuthed := true }
      true rfl).2⟩

/-- C9: silent authentication never raises — unconfigured credentials and any
failure of the external restoration both give `None` — and it returns a user
identity exactly when restoration succeeds, in which case the service handle
becomes authenticated. -/
theorem silent_auth_never_raises (configured : Bool) (restore : Except Unit String)
    (st : ServiceState) :
    (∃ r, (tryAuthenticateFromCache configured restore st).2 = Except.ok r) ∧
    (∀ u, (tryAuthenticateFromCache configured restore st).2 = Except.ok (some u) →
      restore = Except.ok u ∧
      (tryAuthenticateFromCache configured restore st).1.hasClient = true) := by
  cases configured <;> cases restore <;>
    simp [tryAuthenticateFromCache]

theorem silent_auth_never_raises_witness :
    (∃ r, (tryAuthenticateFromCache true (Except.ok "kev") {}).2 = Except.ok r) ∧
    (tryAuthenticateFromCache true (Except.ok "kev") {}).1.hasClient = true :=
  ⟨(silent_auth_never_raises true (Except.ok "kev") {}).1,
   ((silent_auth_never_raises true (Except.ok "kev") {}).2 "kev" rfl).2⟩

/-- C10: with an authenticated client, `start_playback` with neither a truthy
uris list nor a truthy context uri raises the service error before any
external call; with exactly one of the two provided it issues the matching
dispatch (uris for single items, context_uri for collections). -/
theorem start_playback_dispatch (d : String) (uris : Option (List String))
    (contextUri : Option String) :
    (pyTruthyOptList uris = false → pyTruthyOptStr contextUri = false →
      startPlayback true d uris contextUri = Except.error SpotifyErr.noUri) ∧
    (∀ l, uris = some l → l ≠ [] → pyTruthyOptStr contextUri = false →
      startPlayback true d uris contextUri =
        Except.ok (PlaybackDispatch.uris d l)) ∧
    (∀ s, contextUri = some s → s ≠ "" → pyTruthyOptList uris = false →
      startPlayback true d uris contextUri =
        Except.ok (PlaybackDispatch.contextUri d s)) := by
  refine ⟨?_, ?_, ?_⟩
  · intro h1 h2
    simp [startPlayback, h1, h2]
  · rintro l rfl hl h2
    have hu : pyTruthyOptList (some l) = true := by
      simp [pyTruthyOptList, hl]
    simp [startPlayback, hu, h2]
  · rintro s rfl hs h1
    have hc : pyTruthyOptStr (some s) = true := by
      simp [pyTruthyOptStr, hs]
    simp [startPlayback, hc, h1]

theorem start_playback_dispatch_witness :
    startPlayback true "id1" none none = Except.error SpotifyErr.noUri ∧
    startPlayback true "id1" (some ["spotify:track:1"]) none =
      Except.ok (PlaybackDispatch.uris "id1" ["spotify:track:1"]) ∧
    startPlayback true "id1" none (some "spotify:album:1") =
      Except.ok (PlaybackDispatch.contextUri "id1" "spotify:album:1") :=
  ⟨(start_playback_dispatch "id1" none none).1 rfl rfl,
   (start_playback_dispatch "id1" (some ["spotify:track:1"]) none).2.1
     ["spotify:track:1"] rfl (by decide) rfl,
   (start_playback_dispatch "id1" none (some "spotify:album:1")).2.2
     "spotify:album:1" rfl (by decide) rfl⟩

end RPGenius
